import Mathlib

/-!
Shallow embedding of the wanderer-connector resource-access layer.

The embedding covers:
* the `users` data model (src/src/models.rs: `User`, `NewUser`, `UpdateUser`);
* the repository operations (src/src/handlers.rs: `UserRepository`), with the
  datastore modelled as a list of rows and datastore-side behaviour
  (primary-key uniqueness, zero-rows-affected results, the query layer's
  rejection of an empty changeset) made explicit;
* the HTTP status mapping of src/src/main.rs (`create_user`, `get_user`,
  `update_user`, `delete_user`, `get_users`);
* the structural shape of each repository operation with respect to the
  execution context it runs in (which steps are blocking, and which run
  inside the worker-thread offload);
* the notification listener of src/examples/listen-notify.rs, as a step
  function over connection events;
* the trigger-installation DDL of src/examples/listen-notify.rs, over a
  catalog of datastore functions and triggers;
* the connection pool contract (capacity bound, acquire timeout), modelled
  from the spec because the pool implementation is a library external to the
  repository (src/src/db/mod.rs only configures and calls it).
-/

namespace WandererConnector

/-- A row of the `users` table (src/src/models.rs, struct `User`).
Uuid and timestamps are modelled as naturals. -/
structure User where
  id : Nat
  name : String
  email : String
  created_at : Nat
  updated_at : Nat
deriving DecidableEq

/-- Insertable payload (src/src/models.rs, struct `NewUser`): the identity and
both timestamps are generated datastore-side on insert. -/
structure NewUser where
  name : String
  email : String
deriving DecidableEq

/-- Partial-update changeset (src/src/models.rs, struct `UpdateUser`): both
fields optional; the derived changeset skips fields that are `None`. -/
structure UpdateUser where
  name : Option String
  email : Option String
deriving DecidableEq

/-- Datastore-level failures observable through the repository layer. -/
inductive DbError where
  | uniqueViolation
  | notFound
  | queryBuilderError
  | poolExhausted
  | internal
deriving DecidableEq

/-- The datastore table, as the sequence of its rows. -/
abbrev Db := List User

namespace UserRepository

/-- `UserRepository::create_user` (src/src/handlers.rs): inserts the new row,
with identity and timestamps generated by the datastore (`gen_id`, `now`), and
returns the inserted row. A primary-key collision is a unique-constraint
violation. -/
def create_user (db : Db) (new_user : NewUser) (gen_id : Nat) (now : Nat) :
    Except DbError (User × Db) :=
  if db.any (fun u => u.id == gen_id) then
    Except.error DbError.uniqueViolation
  else
    let u : User :=
      { id := gen_id, name := new_user.name, email := new_user.email,
        created_at := now, updated_at := now }
    Except.ok (u, db ++ [u])

/-- `UserRepository::get_user_by_id` (src/src/handlers.rs): filter on the
identity and take the first row; an empty result is a not-found failure. -/
def get_user_by_id (db : Db) (user_id : Nat) : Except DbError User :=
  match db.find? (fun u => u.id == user_id) with
  | some u => Except.ok u
  | none => Except.error DbError.notFound

/-- `UserRepository::get_all_users` (src/src/handlers.rs): load every row. -/
def get_all_users (db : Db) : Except DbError (List User) :=
  Except.ok db

/-- The effect of applying the `UpdateUser` changeset to one row: a field that
is `None` in the changeset is skipped, so the row keeps its value. -/
def applyChangeset (upd : UpdateUser) (u : User) : User :=
  { u with name := upd.name.getD u.name, email := upd.email.getD u.email }

/-- `UserRepository::update_user` (src/src/handlers.rs): update the rows whose
identity matches, returning the updated row. The query layer rejects a
changeset in which every field is unset (diesel reports a query-builder error
for an empty changeset); zero rows affected is a not-found failure. -/
def update_user (db : Db) (user_id : Nat) (upd : UpdateUser) :
    Except DbError (User × Db) :=
  if upd.name = none ∧ upd.email = none then
    Except.error DbError.queryBuilderError
  else
    match db.find? (fun u => u.id == user_id) with
    | some u =>
        Except.ok (applyChangeset upd u,
          db.map (fun r => if r.id == user_id then applyChangeset upd r else r))
    | none => Except.error DbError.notFound

/-- `UserRepository::delete_user` (src/src/handlers.rs): delete the rows whose
identity matches and return whether the count of deleted rows is positive. -/
def delete_user (db : Db) (user_id : Nat) : Except DbError (Bool × Db) :=
  let deleted_count := db.countP (fun u => u.id == user_id)
  Except.ok (decide (0 < deleted_count), db.filter (fun u => u.id != user_id))

end UserRepository

/-- HTTP status of the `create_user` handler (src/src/main.rs): success is
200, every failure is 500. -/
def http_create_user (r : Except DbError User) : Nat :=
  match r with
  | Except.ok _ => 200
  | Except.error _ => 500

/-- HTTP status of the `get_users` handler (src/src/main.rs): success is 200,
every failure is 500. -/
def http_get_users (r : Except DbError (List User)) : Nat :=
  match r with
  | Except.ok _ => 200
  | Except.error _ => 500

/-- HTTP status of the `get_user` handler (src/src/main.rs): success is 200,
every failure is 404. -/
def http_get_user (r : Except DbError User) : Nat :=
  match r with
  | Except.ok _ => 200
  | Except.error _ => 404

/-- HTTP status of the `update_user` handler (src/src/main.rs): success is
200, every failure is 500. -/
def http_update_user (r : Except DbError User) : Nat :=
  match r with
  | Except.ok _ => 200
  | Except.error _ => 500

/-- HTTP status of the `delete_user` handler (src/src/main.rs): `Ok(true)` is
204, `Ok(false)` is 404, every failure is 500. -/
def http_delete_user (r : Except DbError Bool) : Nat :=
  match r with
  | Except.ok true => 204
  | Except.ok false => 404
  | Except.error _ => 500

/-- Execution contexts of the async runtime: the invoking asynchronous task
(scheduled on an event-loop thread) or the blocking worker-thread pool used by
the spawn-blocking offload. -/
inductive ExecCtx where
  | asyncTask
  | blockingWorker
deriving DecidableEq

/-- The kinds of externally observable steps a repository operation performs. -/
inductive StepKind where
  | acquireConnection
  | dbRoundTrip
deriving DecidableEq

/-- One step of a repository operation: what it does, where it runs, and
whether it blocks the thread it runs on. -/
structure OpStep where
  kind : StepKind
  ctx : ExecCtx
  blocking : Bool
deriving DecidableEq

/-- Steps of `UserRepository::create_user` (src/src/handlers.rs): the blocking
pool acquisition `get_connection(pool)?` runs inline on the invoking async
task, and only the insert round-trip runs inside the worker-thread offload. -/
def create_user_steps : List OpStep :=
  [⟨StepKind.acquireConnection, ExecCtx.asyncTask, true⟩,
   ⟨StepKind.dbRoundTrip, ExecCtx.blockingWorker, true⟩]

/-- Steps of `UserRepository::get_user_by_id` (src/src/handlers.rs): same
shape as `create_user_steps`. -/
def get_user_by_id_steps : List OpStep :=
  [⟨StepKind.acquireConnection, ExecCtx.asyncTask, true⟩,
   ⟨StepKind.dbRoundTrip, ExecCtx.blockingWorker, true⟩]

/-- Steps of `UserRepository::get_all_users` (src/src/handlers.rs). -/
def get_all_users_steps : List OpStep :=
  [⟨StepKind.acquireConnection, ExecCtx.asyncTask, true⟩,
   ⟨StepKind.dbRoundTrip, ExecCtx.blockingWorker, true⟩]

/-- Steps of `UserRepository::update_user` (src/src/handlers.rs). -/
def update_user_steps : List OpStep :=
  [⟨StepKind.acquireConnection, ExecCtx.asyncTask, true⟩,
   ⟨StepKind.dbRoundTrip, ExecCtx.blockingWorker, true⟩]

/-- Steps of `UserRepository::delete_user` (src/src/handlers.rs). -/
def delete_user_steps : List OpStep :=
  [⟨StepKind.acquireConnection, ExecCtx.asyncTask, true⟩,
   ⟨StepKind.dbRoundTrip, ExecCtx.blockingWorker, true⟩]

/-- The step lists of the five CRUD operations. -/
def crud_op_steps : List (List OpStep) :=
  [create_user_steps, get_user_by_id_steps, get_all_users_steps,
   update_user_steps, delete_user_steps]

/-- A message arriving on the dedicated listener connection
(src/examples/listen-notify.rs): either an asynchronous notification or some
other protocol message. -/
inductive AsyncMessage where
  | notification (channel : String) (payload : String)
  | other
deriving DecidableEq

/-- An event on the listener connection: a message, or a read/connection
error surfaced by `poll_message`. -/
inductive ConnEvent where
  | message (m : AsyncMessage)
  | readError
deriving DecidableEq

/-- The states the listener of src/examples/listen-notify.rs can be in:
running (forwarding notifications), or panicked. The code maps any stream
error to a panic and unwraps the forward result, so an error terminates the
task; no reconnecting state exists in the code. -/
inductive ListenerState where
  | running
  | panicked
deriving DecidableEq

/-- One step of the listener (src/examples/listen-notify.rs): while running, a
notification message is forwarded (the `filter_map` keeps only
`AsyncMessage::Notification`), any other message is dropped, and a read error
panics the forwarding task. A panicked listener does nothing further. -/
def listenerStep : ListenerState → ConnEvent → ListenerState × Option AsyncMessage
  | ListenerState.running, ConnEvent.message (AsyncMessage.notification c p) =>
      (ListenerState.running, some (AsyncMessage.notification c p))
  | ListenerState.running, ConnEvent.message AsyncMessage.other =>
      (ListenerState.running, none)
  | ListenerState.running, ConnEvent.readError =>
      (ListenerState.panicked, none)
  | ListenerState.panicked, _ => (ListenerState.panicked, none)

/-- Run the listener from a given state over a sequence of connection events,
collecting the notifications it delivers. -/
def listenerRunFrom : ListenerState → List ConnEvent → ListenerState × List AsyncMessage
  | s, [] => (s, [])
  | s, e :: evs =>
      let p := listenerStep s e
      let rest := listenerRunFrom p.1 evs
      (rest.1, p.2.toList ++ rest.2)

/-- Run the listener from its initial running state. -/
def listenerRun (evs : List ConnEvent) : ListenerState × List AsyncMessage :=
  listenerRunFrom ListenerState.running evs

/-- The datastore-side catalog touched by the trigger-installation DDL:
functions and triggers, each a name paired with its definition text. -/
structure DbCatalog where
  functions : List (String × String)
  triggers : List (String × String)
deriving DecidableEq

/-- Create-or-replace semantics over a catalog section: any existing entry
under the name is replaced by the new definition, so exactly one entry with
that name remains. -/
def createOrReplace (name body : String) (items : List (String × String)) :
    List (String × String) :=
  items.filter (fun p => p.1 != name) ++ [(name, body)]

/-- Definition text of the notification-emitting function installed by
src/examples/listen-notify.rs. -/
def new_system_notify_def : String :=
  "PERFORM pg_notify(system_insert, row_to_json(NEW)::text); RETURN NEW"

/-- Definition text of the trigger installed by src/examples/listen-notify.rs. -/
def system_insert_def : String :=
  "AFTER INSERT ON test_table FOR EACH ROW EXECUTE FUNCTION new_system_notify"

/-- The trigger-installation sequence of src/examples/listen-notify.rs: one
CREATE OR REPLACE FUNCTION statement and one CREATE OR REPLACE TRIGGER
statement. -/
def ensure_installed (s : DbCatalog) : DbCatalog :=
  { functions := createOrReplace "new_system_notify" new_system_notify_def s.functions,
    triggers := createOrReplace "system_insert" system_insert_def s.triggers }

/-- `ensure_installed` run `n` times in succession. -/
def installTimes : Nat → DbCatalog → DbCatalog
  | 0, s => s
  | n + 1, s => installTimes n (ensure_installed s)

/-- The pool capacity configured by `establish_connection_pool`
(src/src/db/mod.rs): `max_size(10)`. -/
def pool_max_size : Nat := 10

/-- An event against the connection pool: a successful-or-blocked acquire
attempt, or the return of a checked-out connection. -/
inductive PoolEvent where
  | acquire
  | release
deriving DecidableEq

/-- Modelled from the spec: the ConnectionPool counter (the pool
implementation is a library external to the repository; src/src/db/mod.rs
only configures it). `acquire` hands out a connection only while fewer than
`cap` are checked out — beyond capacity the caller blocks or times out and no
extra connection is created; `release` returns one. The state is the number
of checked-out connections. -/
def poolStep (cap : Nat) (out : Nat) : PoolEvent → Nat
  | PoolEvent.acquire => if out < cap then out + 1 else out
  | PoolEvent.release => out - 1

/-- The number of checked-out connections after a sequence of pool events,
starting from an idle pool. -/
def poolRun (cap : Nat) (evs : List PoolEvent) : Nat :=
  evs.foldl (poolStep cap) 0

/-- Failure of an acquire attempt. -/
inductive AcquireError where
  | poolExhausted
deriving DecidableEq

/-- Modelled from the spec: `acquire(timeout)` against a pool whose capacity
is fully checked out. `freeAt` is the instant at which a connection is next
returned (`none` if no connection is returned during the wait). The result
pairs the instant at which the call returns with its outcome: an acquire that
obtains a freed connection within the timeout succeeds at that instant;
otherwise the call fails with PoolExhausted exactly when the timeout
elapses. -/
def acquireFull (timeout : Nat) (freeAt : Option Nat) :
    Nat × Except AcquireError Unit :=
  match freeAt with
  | some t =>
      if t ≤ timeout then (t, Except.ok ())
      else (timeout, Except.error AcquireError.poolExhausted)
  | none => (timeout, Except.error AcquireError.poolExhausted)

/-- A sample stored row, used to instantiate theorems with hypotheses. -/
def u0 : User :=
  { id := 1, name := "a", email := "b", created_at := 0, updated_at := 0 }

/-- A sample changeset with only the name field set. -/
def upd0 : UpdateUser := { name := some "c", email := none }

/-- Claim C1 counterexample: the HTTP layer of src/src/main.rs does not
implement the claimed taxonomy mapping. A failing update with a not-found
failure returns 500 and not 404; a unique-constraint violation on create
returns 500 and not 409; and `get_user` returns 404 for a failure that is not
a not-found failure, so a failing get does not return 404 only on NotFound. -/
theorem http_error_mapping_cx :
    http_update_user (Except.error DbError.notFound) ≠ 404 ∧
    http_create_user (Except.error DbError.uniqueViolation) ≠ 409 ∧
    http_get_user (Except.error DbError.internal) = 404 ∧
    DbError.internal ≠ DbError.notFound := by decide

/-- Claim C1 (amended): the HTTP layer maps every `create_user`,
`get_users` and `update_user` failure to 500 regardless of its cause, every
`get_user` failure to 404 regardless of its cause, success to 200, and for
`delete_user` maps `Ok(true)` to 204, `Ok(false)` to 404 and every failure to
500; no failure is mapped to 409. -/
theorem http_status_mapping :
    ∀ (e : DbError) (u : User) (us : List User),
      http_create_user (Except.error e) = 500 ∧
      http_create_user (Except.ok u) = 200 ∧
      http_get_users (Except.error e) = 500 ∧
      http_get_users (Except.ok us) = 200 ∧
      http_get_user (Except.error e) = 404 ∧
      http_get_user (Except.ok u) = 200 ∧
      http_update_user (Except.error e) = 500 ∧
      http_update_user (Except.ok u) = 200 ∧
      http_delete_user (Except.ok true) = 204 ∧
      http_delete_user (Except.ok false) = 404 ∧
      http_delete_user (Except.error e) = 500 :=
  fun _ _ _ => ⟨rfl, rfl, rfl, rfl, rfl, rfl, rfl, rfl, rfl, rfl, rfl⟩

/-- Claim C5: `delete_user` always succeeds at the repository level (it never
turns an absent identity into a failure), and the boolean it returns is true
exactly when at least one stored row carried the deleted identity. -/
theorem delete_returns_was_deleted :
    ∀ (db : Db) (user_id : Nat),
      ∃ b db2,
        UserRepository.delete_user db user_id = Except.ok (b, db2) ∧
        (b = true ↔ ∃ u ∈ db, u.id = user_id) := by
  intro db user_id
  refine ⟨_, _, rfl, ?_⟩
  simp [List.countP_pos_iff]

/-- Claim C10: an update whose changeset has every field unset is rejected by
the query layer with a query-builder error instead of succeeding as a no-op. -/
theorem empty_changeset_update_fails :
    ∀ (db : Db) (user_id : Nat),
      UserRepository.update_user db user_id ⟨none, none⟩ =
        Except.error DbError.queryBuilderError := by
  intro db user_id
  simp [UserRepository.update_user]

/-- Claim C8 counterexample: in `create_user` the blocking pool acquisition
runs on the invoking async task, so not every blocking step of the operation
is dispatched to a worker thread. -/
theorem blocking_acquire_on_async_task :
    create_user_steps.all
      (fun s => !s.blocking || s.ctx == ExecCtx.blockingWorker) = false := by
  decide

/-- Claim C8 (amended): every CRUD operation performs exactly one datastore
round-trip, and that round-trip is a blocking step dispatched to the
worker-thread pool; but each operation also performs a blocking connection
acquisition that runs inline on the invoking async task, before the offload. -/
theorem one_offloaded_round_trip :
    crud_op_steps.all (fun L =>
      (L.countP (fun s => s.kind == StepKind.dbRoundTrip) == 1) &&
      L.all (fun s => !(s.kind == StepKind.dbRoundTrip) ||
        (s.ctx == ExecCtx.blockingWorker && s.blocking)) &&
      L.any (fun s => (s.kind == StepKind.acquireConnection) && s.blocking &&
        (s.ctx == ExecCtx.asyncTask))) = true := by
  decide

/-- Claim C7: against a fully checked-out pool, an acquire that sees no
connection freed during the wait fails with PoolExhausted exactly when the
timeout elapses (not before); an acquire that obtains a connection freed
within the timeout succeeds, at the instant the connection is freed. -/
theorem acquire_timeout_spec :
    ∀ (timeout : Nat),
      acquireFull timeout none =
        (timeout, Except.error AcquireError.poolExhausted) ∧
      (∀ t, t ≤ timeout → acquireFull timeout (some t) = (t, Except.ok ())) ∧
      (∀ t, timeout < t → acquireFull timeout (some t) =
        (timeout, Except.error AcquireError.poolExhausted)) := by
  intro timeout
  refine ⟨rfl, ?_, ?_⟩
  · intro t h
    simp [acquireFull, h]
  · intro t h
    simp [acquireFull, Nat.not_le.mpr h]

/-- Witness for `acquire_timeout_spec` at timeout 5 with a connection freed at
3 (within) and at 7 (beyond). -/
theorem acquire_timeout_witness :
    acquireFull 5 none = (5, Except.error AcquireError.poolExhausted) ∧
    acquireFull 5 (some 3) = (3, Except.ok ()) ∧
    acquireFull 5 (some 7) = (5, Except.error AcquireError.poolExhausted) :=
  ⟨(acquire_timeout_spec 5).1, (acquire_timeout_spec 5).2.1 3 (by decide),
   (acquire_timeout_spec 5).2.2 7 (by decide)⟩

/-- A panicked listener processes no further events and delivers nothing. -/
theorem listenerRunFrom_panicked :
    ∀ (evs : List ConnEvent),
      listenerRunFrom ListenerState.panicked evs = (ListenerState.panicked, []) := by
  intro evs
  induction evs with
  | nil => rfl
  | cons e t ih => simp [listenerRunFrom, listenerStep, ih]

/-- Claim C2 counterexample: after a read error on the listener connection,
a notification arriving later is not delivered and the listener is panicked —
the connection loss is fatal, with no reconnecting state. -/
theorem listener_loss_fatal_cx :
    (listenerRun [ConnEvent.readError,
        ConnEvent.message (AsyncMessage.notification "system_insert" "p")]).1 =
      ListenerState.panicked ∧
    AsyncMessage.notification "system_insert" "p" ∉
      (listenerRun [ConnEvent.readError,
        ConnEvent.message (AsyncMessage.notification "system_insert" "p")]).2 := by
  decide

/-- Claim C2 (amended): on any read or connection error the listener task of
src/examples/listen-notify.rs panics: every connection loss is fatal, the
listener delivers no notification from that point on, and no reconnection,
backoff, or re-subscription happens. -/
theorem listener_error_is_fatal :
    ∀ (evs : List ConnEvent),
      listenerRun (ConnEvent.readError :: evs) = (ListenerState.panicked, []) := by
  intro evs
  simp [listenerRun, listenerRunFrom, listenerStep, listenerRunFrom_panicked evs]

/-- Folding pool events preserves the capacity bound on the checked-out
counter. -/
theorem poolFoldl_le (cap : Nat) :
    ∀ (evs : List PoolEvent) (out : Nat), out ≤ cap →
      evs.foldl (poolStep cap) out ≤ cap := by
  intro evs
  induction evs with
  | nil =>
      intro out h
      simpa using h
  | cons e t ih =>
      intro out h
      simp only [List.foldl_cons]
      apply ih
      cases e with
      | acquire =>
          simp only [poolStep]
          split
          · omega
          · exact h
      | release =>
          simp only [poolStep]
          omega

/-- Claim C6: for a pool of fixed positive capacity, no sequence of acquire
and release events ever drives the number of concurrently checked-out
connections above the capacity, and an acquire against a fully checked-out
pool creates no extra connection. -/
theorem pool_never_exceeds_capacity :
    ∀ (cap : Nat), 0 < cap →
      ∀ (evs : List PoolEvent),
        poolRun cap evs ≤ cap ∧ poolStep cap cap PoolEvent.acquire = cap := by
  intro cap _ evs
  refine ⟨poolFoldl_le cap evs 0 (Nat.zero_le cap), ?_⟩
  simp [poolStep]

/-- Witness for `pool_never_exceeds_capacity` at the configured capacity of
src/src/db/mod.rs and a concrete event sequence. -/
theorem pool_capacity_witness :
    poolRun pool_max_size
        [PoolEvent.acquire, PoolEvent.acquire, PoolEvent.release,
         PoolEvent.acquire] ≤ pool_max_size ∧
      poolStep pool_max_size pool_max_size PoolEvent.acquire = pool_max_size :=
  pool_never_exceeds_capacity pool_max_size (by decide)
    [PoolEvent.acquire, PoolEvent.acquire, PoolEvent.release,
     PoolEvent.acquire]

/-- Replacing an entry twice under the same name is the same as replacing it
once. -/
theorem createOrReplace_idem (name body : String) (l : List (String × String)) :
    createOrReplace name body (createOrReplace name body l) =
      createOrReplace name body l := by
  simp [createOrReplace, List.filter_append]

/-- After a create-or-replace, exactly one entry carries the name. -/
theorem countP_createOrReplace (name body : String) (l : List (String × String)) :
    (createOrReplace name body l).countP (fun p => p.1 == name) = 1 := by
  unfold createOrReplace
  rw [List.countP_append]
  have h0 : (l.filter (fun p => p.1 != name)).countP (fun p => p.1 == name) = 0 := by
    rw [List.countP_eq_zero]
    intro a ha
    have hne := (List.mem_filter.mp ha).2
    simp only [bne_iff_ne, ne_eq] at hne
    simp [hne]
  simp [h0, List.countP_cons]

/-- Installing the trigger machinery twice yields the state of installing it
once. -/
theorem ensure_installed_twice (s : DbCatalog) :
    ensure_installed (ensure_installed s) = ensure_installed s := by
  simp [ensure_installed, createOrReplace_idem]

/-- Claim C9: `ensure_installed` is idempotent — running the installation any
positive number of times in succession yields the same catalog as running it
once, and that catalog holds exactly one notification-emitting function and
exactly one trigger under the installed names. -/
theorem ensure_installed_idempotent :
    ∀ (s : DbCatalog) (n : Nat),
      installTimes (n + 1) s = ensure_installed s ∧
      (installTimes (n + 1) s).functions.countP
        (fun p => p.1 == "new_system_notify") = 1 ∧
      (installTimes (n + 1) s).triggers.countP
        (fun p => p.1 == "system_insert") = 1 := by
  have key : ∀ (n : Nat) (s : DbCatalog), installTimes (n + 1) s = ensure_installed s := by
    intro n
    induction n with
    | zero => intro s; rfl
    | succ m ih =>
        intro s
        calc installTimes (m + 2) s = installTimes (m + 1) (ensure_installed s) := rfl
          _ = ensure_installed (ensure_installed s) := ih _
          _ = ensure_installed s := ensure_installed_twice s
  intro s n
  refine ⟨key n s, ?_, ?_⟩
  · rw [key n s]
    exact countP_createOrReplace _ _ _
  · rw [key n s]
    exact countP_createOrReplace _ _ _

/-- Claim C3: a successful partial update leaves every unset field of the
matched row unchanged — if the changeset's name (resp. email) is unset, the
resulting row keeps the stored name (resp. email). -/
theorem update_preserves_unset_fields :
    ∀ (db : Db) (user_id : Nat) (upd : UpdateUser) (u u2 : User) (db2 : Db),
      UserRepository.update_user db user_id upd = Except.ok (u2, db2) →
      db.find? (fun r => r.id == user_id) = some u →
      (upd.name = none → u2.name = u.name) ∧
      (upd.email = none → u2.email = u.email) := by
  intro db user_id upd u u2 db2 h hfind
  unfold UserRepository.update_user at h
  split at h
  · exact absurd h (by simp)
  · rw [hfind] at h
    simp only [Except.ok.injEq, Prod.mk.injEq] at h
    obtain ⟨hu, -⟩ := h
    subst hu
    constructor
    · intro hn
      simp [UserRepository.applyChangeset, hn]
    · intro he
      simp [UserRepository.applyChangeset, he]

/-- Witness for `update_preserves_unset_fields` on the sample row and the
name-only changeset. -/
theorem update_preserves_unset_witness :
    (upd0.name = none → (UserRepository.applyChangeset upd0 u0).name = u0.name) ∧
    (upd0.email = none → (UserRepository.applyChangeset upd0 u0).email = u0.email) :=
  update_preserves_unset_fields [u0] 1 upd0 u0
    (UserRepository.applyChangeset upd0 u0)
    [UserRepository.applyChangeset upd0 u0] rfl rfl

/-- Claim C4: a successful create followed by a get with the identity of the
returned entity yields exactly that entity. -/
theorem create_get_round_trip :
    ∀ (db : Db) (new_user : NewUser) (gen_id now : Nat) (u : User) (db2 : Db),
      UserRepository.create_user db new_user gen_id now = Except.ok (u, db2) →
      UserRepository.get_user_by_id db2 u.id = Except.ok u := by
  intro db new_user gen_id now u db2 h
  unfold UserRepository.create_user at h
  split at h
  · exact absurd h (by simp)
  · next hany =>
    simp only [Except.ok.injEq, Prod.mk.injEq] at h
    obtain ⟨hu, hdb⟩ := h
    subst hu
    subst hdb
    have hnone : db.find? (fun r => r.id == gen_id) = none := by
      rw [List.find?_eq_none]
      intro x hx
      simp only [List.any_eq_true, not_exists, not_and] at hany
      intro hbeq
      exact hany x hx hbeq
    unfold UserRepository.get_user_by_id
    simp [List.find?_append, hnone]

/-- Witness for `create_get_round_trip` on an empty table. -/
theorem create_get_round_trip_witness :
    UserRepository.get_user_by_id
        [{ id := 1, name := "a", email := "b", created_at := 0, updated_at := 0 }]
        ({ id := 1, name := "a", email := "b", created_at := 0,
           updated_at := 0 : User }).id =
      Except.ok
        { id := 1, name := "a", email := "b", created_at := 0, updated_at := 0 } :=
  create_get_round_trip [] { name := "a", email := "b" } 1 0
    { id := 1, name := "a", email := "b", created_at := 0, updated_at := 0 }
    [{ id := 1, name := "a", email := "b", created_at := 0, updated_at := 0 }] rfl

end WandererConnector
